import Mathlib

/-!
Shallow embedding of `server.py` (ODIA TTS server) and verification of the
specification's claims about it.

The embedding follows the source file closely:
* `normalizeParam` embeds the inline rate/volume normalization of the
  `speak` handler (`rate if rate and rate != "0%" else "+0%"`).
* `speak` embeds the `/speak` handler with the streaming synthesis call
  abstracted as a function parameter returning either audio bytes or an error.
* `agent` embeds the `/agent` handler with the chat-completion call
  abstracted as an `AIResult` parameter.
* `speak_agent` embeds the `/speak-agent` handler, which chains the two.
* `get_openai_client` embeds the lazy OpenAI client accessor as a state
  transition on the module-level cache `_oai` (None / client / False).
* A token-bucket admission controller appears in the specification but not
  in the source file; it is modelled from the spec (marked as such below).
-/

namespace OdiaTTS

/-- Whitespace stripping as in Python's `str.strip()`, implemented
structurally on the character list so that closed instances evaluate by
kernel reduction: drop leading and trailing whitespace characters. -/
def strTrim (s : String) : String :=
  ⟨((s.toList.dropWhile Char.isWhitespace).reverse.dropWhile
      Char.isWhitespace).reverse⟩

/-- Python truthiness-based fallback on optional strings: `a or b` where `a`
is an `Optional[str]` (falsy when `None` or `""`). -/
def pyOrStr (a : Option String) (b : String) : String :=
  match a with
  | none => b
  | some s => if s = "" then b else s

/-- Embeds `server.py` lines 126-127, applied identically to `rate` and
`volume` in the `speak` handler: `rate if rate and rate != "0%" else "+0%"`.
The value is kept when it is a non-empty string different from `"0%"`,
otherwise the default `"+0%"` is used. -/
def normalizeParam (raw : Option String) : String :=
  match raw with
  | none => "+0%"
  | some s => if s = "" ∨ s = "0%" then "+0%" else s

/-- Decides whether a string matches the regular expression `^[+-]\d+%$`:
a sign, one or more digits, then a percent sign, nothing else. -/
def matchesSignedPercent (s : String) : Bool :=
  match s.toList with
  | [] => false
  | c :: rest =>
    (c == '+' || c == '-') &&
    !(rest.dropLast.isEmpty) &&
    rest.dropLast.all (fun d => d.isDigit) &&
    rest.getLast? == some '%'

/-- Failure classes of the synthesis call (`edge_tts.Communicate(...).save(...)`):
the provider may raise `NoAudioReceived` or any other exception. -/
inductive SynthError
  | noAudio
  | other (msg : String)
deriving DecidableEq, Repr

/-- A synthesis backend: given text, voice, rate, volume it either yields the
audio bytes or raises an error. Abstracts `edge_tts` in the `speak` handler. -/
def SynthFn : Type := String → String → String → String → Except SynthError (List Nat)

/-- Embeds the `/speak` handler (`server.py` lines 118-142), parametrised by
the environment-configured default voice and by the synthesis backend.
`voice_name = (voice or TTS_VOICE_DEFAULT).strip()`; rate and volume go
through the inline normalization; any exception from synthesis is caught by
the single `except` clause and surfaced as HTTP 500, success is an HTTP 200
MPEG audio response. Returns `(status, audio bytes on success)`. -/
def speak (defaultVoice : String) (text : String) (voice : Option String)
    (rate volume : Option String) (synth : SynthFn) : Nat × Option (List Nat) :=
  let voice_name := strTrim (pyOrStr voice defaultVoice)
  let rate' := normalizeParam rate
  let volume' := normalizeParam volume
  match synth text voice_name rate' volume' with
  | .ok audio => (200, some audio)
  | .error _ => (500, none)

/-- Request body of `/agent` and `/speak-agent` (`class AgentIn`,
`server.py` lines 57-60): exactly the fields `message`, `text`, `agent` —
in particular there is no `voice` field. -/
structure AgentIn where
  message : Option String
  text : Option String
  agent : Option String
deriving DecidableEq, Repr

/-- Response body of `/agent` (`class AgentOut`); the `timestamp` field is a
wall-clock string and is not modelled. -/
structure AgentOut where
  reply : String
  mode : String
  agent : String
  error : Option String
deriving DecidableEq, Repr

/-- Outcome of the single chat-completion call in the `agent` handler:
either it returns (with `choices[0].message.content`, possibly `None`), or it
raises an exception / times out, identified by its type name. -/
inductive AIResult
  | success (content : Option String)
  | exn (exnName : String)
deriving DecidableEq, Repr

/-- Embeds `user_msg = (body.message or body.text or "").strip()` (line 146). -/
def extractMsg (body : AgentIn) : String :=
  strTrim (pyOrStr body.message (pyOrStr body.text ""))

/-- Embeds `agent_type = body.agent or "lexi"` (line 147). -/
def agentType (body : AgentIn) : String :=
  pyOrStr body.agent "lexi"

/-- Embeds the `/agent` handler (`server.py` lines 144-187).
`clientAvailable` is whether `get_openai_client()` returned a client;
`aiCall` is the outcome of the chat-completion call when one is made.
Empty/whitespace-only message raises HTTPException 422 (modelled as
`Except.error 422`). With a client, a returned non-empty trimmed reply gives
`mode="ai"`; an empty reply raises `ValueError` which the `except` clause
catches like any other exception, producing the echo fallback with
`error = "ai_error: <ExceptionName>"`. Without a client the echo fallback
carries `error = "openai_not_configured"`. -/
def agent (body : AgentIn) (clientAvailable : Bool) (aiCall : AIResult) :
    Except Nat AgentOut :=
  let user_msg := extractMsg body
  let agent_type := agentType body
  if user_msg = "" then
    .error 422
  else if clientAvailable then
    match aiCall with
    | .success content =>
      let reply := strTrim (content.getD "")
      if reply = "" then
        .ok ⟨user_msg, "echo", agent_type, some "ai_error: ValueError"⟩
      else
        .ok ⟨reply, "ai", agent_type, none⟩
    | .exn exnName =>
      .ok ⟨user_msg, "echo", agent_type, some ("ai_error: " ++ exnName)⟩
  else
    .ok ⟨user_msg, "echo", agent_type, some "openai_not_configured"⟩

/-- Embeds the `/speak-agent` handler (`server.py` lines 189-192):
`agent_response = await agent(body)` then
`return await speak(text=agent_response.reply, voice=TTS_VOICE_DEFAULT)`,
with `rate` and `volume` left at their declared defaults `"+0%"`.
An HTTPException raised by `agent` propagates. -/
def speak_agent (defaultVoice : String) (body : AgentIn) (clientAvailable : Bool)
    (aiCall : AIResult) (synth : SynthFn) : Except Nat (Nat × Option (List Nat)) :=
  match agent body clientAvailable aiCall with
  | .error code => .error code
  | .ok out => .ok (speak defaultVoice out.reply (some defaultVoice)
      (some "+0%") (some "+0%") synth)

/-- The module-level cache `_oai` of the lazy OpenAI client accessor:
`None` (uninitialized), a client object (ready), or `False` (failed). -/
inductive OaiCache
  | uninit
  | ready
  | failed
deriving DecidableEq, Repr

/-- Embeds `get_openai_client` (`server.py` lines 43-54) as a transition on
the cache `_oai`. `apiKeyPresent` is the truthiness of `OPENAI_API_KEY`;
`initSucceeds` is whether the `OpenAI(...)` construction succeeds when it is
attempted. An attempt happens only when `_oai is None and OPENAI_API_KEY`;
on failure `_oai = False` is recorded. The accessor returns
`_oai if _oai else None`: a client only from the ready state. -/
def get_openai_client (apiKeyPresent initSucceeds : Bool) :
    OaiCache → OaiCache × Option Unit
  | .uninit =>
    if apiKeyPresent then
      if initSucceeds then (.ready, some ()) else (.failed, none)
    else (.uninit, none)
  | .ready => (.ready, some ())
  | .failed => (.failed, none)

/-- A sequence of calls to `get_openai_client`, threading the cache; each
element of `inits` tells whether an `OpenAI(...)` construction attempted at
that call would succeed. Returns the final cache and the returned clients. -/
def runClientCalls (apiKeyPresent : Bool) : List Bool → OaiCache →
    OaiCache × List (Option Unit)
  | [], st => (st, [])
  | i :: is, st =>
    let (st', r) := get_openai_client apiKeyPresent i st
    let (stf, rs) := runClientCalls apiKeyPresent is st'
    (stf, r :: rs)

/-- The bytes a string contributes when handed to the synthesis backend:
used by probe backends to observe exactly which text/voice reaches them. -/
def strBytes (s : String) : List Nat :=
  s.toList.map Char.toNat

/-- A probe synthesis backend that records the text argument it receives. -/
def textProbe : SynthFn :=
  fun text _ _ _ => .ok (strBytes text)

/-- A probe synthesis backend that records the voice argument it receives. -/
def voiceProbe : SynthFn :=
  fun _ voice _ _ => .ok (strBytes voice)

/-- Modelled from the spec (§4.4): the sanitizer said to guard the composite
endpoint, which "strips non-ASCII characters and collapses whitespace".
Non-ASCII characters are removed and maximal runs of whitespace are replaced
by a single space. No such function exists in `server.py`. -/
def sanitizeSpec (s : String) : String :=
  let ascii := s.toList.filter (fun c => c.toNat < 128)
  let step := fun (acc : List Char) (c : Char) =>
    if c.isWhitespace then
      match acc with
      | ' ' :: _ => acc
      | _ => ' ' :: acc
    else c :: acc
  ⟨(ascii.foldl step []).reverse⟩

/-- Per-identity token bucket of the Admission Controller. -/
structure Bucket where
  tokens : ℚ
  lastRefill : ℚ
deriving DecidableEq, Repr

/-- Modelled from the spec (§4.1): the refill step of the Admission
Controller as observed at time `now` — the token count after adding
`elapsed * C/60` tokens, capped at the capacity `C`. -/
def refillTokens (C : ℚ) (now : ℚ) (b : Bucket) : ℚ :=
  if b.tokens + (now - b.lastRefill) * (C / 60) ≤ C then
    b.tokens + (now - b.lastRefill) * (C / 60)
  else C

/-- Modelled from the spec (§4.1): no admission controller exists in
`server.py`; this is `tryAcquire` as the spec describes it. On a call at
time `now`: add `elapsed * C/60` tokens capped at capacity `C`; if at least
one token is available, consume one and admit, otherwise reject, in both
cases recording the observation timestamp. -/
def tryAcquire (C : ℚ) (now : ℚ) (b : Bucket) : Bool × Bucket :=
  if 1 ≤ refillTokens C now b then (true, ⟨refillTokens C now b - 1, now⟩)
  else (false, ⟨refillTokens C now b, now⟩)

/-- Modelled from the spec (§4.1): "Buckets for unseen identities start full
(C tokens)". -/
def freshBucket (C : ℚ) (now : ℚ) : Bucket := ⟨C, now⟩

/-- Modelled from the spec (§6): "429 if admission denied" — the HTTP status
attached to each admission outcome (admitted requests proceed, `none`). -/
def admissionStatus (admitted : Bool) : Option Nat :=
  if admitted then none else some 429

/-- The Admission Controller's per-identity bucket map (spec §3):
identity → bucket, created lazily on first request. -/
def AdmState : Type := String → Option Bucket

/-- Modelled from the spec (§4.1): one `tryAcquire` call routed through the
bucket map — an unseen identity gets a fresh full bucket first. -/
def stateTryAcquire (C now : ℚ) (st : AdmState) (id : String) :
    Bool × AdmState :=
  ((tryAcquire C now ((st id).getD (freshBucket C now))).1,
   fun j =>
     if j = id then some (tryAcquire C now ((st id).getD (freshBucket C now))).2
     else st j)

/-- A burst of `n` `tryAcquire` calls for the same identity, all at the same
instant `now`, returning the admission outcomes in order and the final map. -/
def stateBurst (C now : ℚ) (st : AdmState) (id : String) :
    Nat → List Bool × AdmState
  | 0 => ([], st)
  | n + 1 =>
    ((stateTryAcquire C now st id).1 ::
       (stateBurst C now (stateTryAcquire C now st id).2 id n).1,
     (stateBurst C now (stateTryAcquire C now st id).2 id n).2)

/-- Bucket-level burst: `n` `tryAcquire` calls at the same instant on one
bucket, returning the outcomes in order and the final bucket. -/
def burst (C now : ℚ) (b : Bucket) : Nat → List Bool × Bucket
  | 0 => ([], b)
  | n + 1 =>
    ((tryAcquire C now b).1 :: (burst C now (tryAcquire C now b).2 n).1,
     (burst C now (tryAcquire C now b).2 n).2)

/-! Helper lemmas about the admission controller. -/

/-- Refilling a bucket observed at its own refill instant leaves the token
count unchanged (no time has elapsed), provided it is within capacity. -/
theorem refillTokens_same_instant (C now t : ℚ) (h : t ≤ C) :
    refillTokens C now ⟨t, now⟩ = t := by
  simp [refillTokens, h]

/-- At the instant of the last refill, `tryAcquire` admits exactly when at
least one token is available, consuming one token. -/
theorem tryAcquire_same_instant (C now t : ℚ) (h : t ≤ C) :
    tryAcquire C now ⟨t, now⟩ =
      if 1 ≤ t then (true, ⟨t - 1, now⟩) else (false, ⟨t, now⟩) := by
  simp [tryAcquire, refillTokens_same_instant C now t h]

/-- A burst of `n` calls with no elapsed time against a bucket holding `m`
whole tokens admits the first `min m n` calls and rejects the rest, leaving
`m - min m n` tokens. -/
theorem burst_same_instant (C now : ℚ) (n : Nat) :
    ∀ m : Nat, (m : ℚ) ≤ C →
      burst C now ⟨(m : ℚ), now⟩ n =
        (List.replicate (min m n) true ++ List.replicate (n - min m n) false,
         ⟨((m - min m n : Nat) : ℚ), now⟩) := by
  induction n with
  | zero => intro m hm; simp [burst]
  | succ n ih =>
    intro m hm
    match m with
    | 0 =>
      have h0 : ((0 : Nat) : ℚ) ≤ C := by exact_mod_cast hm
      have h1 : tryAcquire C now ⟨((0 : Nat) : ℚ), now⟩ = (false, ⟨0, now⟩) := by
        rw [show ((0 : Nat) : ℚ) = 0 by norm_num,
          tryAcquire_same_instant C now 0 (by exact_mod_cast h0)]
        norm_num
      have h2 := ih 0 (by exact_mod_cast h0)
      simp only [burst, h1]
      rw [show (0 : ℚ) = ((0 : Nat) : ℚ) by norm_num]
      rw [h2]
      simp [List.replicate_succ]
    | k + 1 =>
      have hk : (k : ℚ) ≤ C := by
        have : (k : ℚ) ≤ ((k + 1 : Nat) : ℚ) := by push_cast; linarith
        linarith
      have h1 : tryAcquire C now ⟨((k + 1 : Nat) : ℚ), now⟩ =
          (true, ⟨((k + 1 : Nat) : ℚ) - 1, now⟩) := by
        rw [tryAcquire_same_instant C now _ hm]
        have : (1 : ℚ) ≤ ((k + 1 : Nat) : ℚ) := by push_cast; linarith
        simp [this]
      have hsub : ((k + 1 : Nat) : ℚ) - 1 = (k : ℚ) := by push_cast; ring
      have h2 := ih k hk
      simp only [burst, h1, hsub, h2]
      simp [Nat.succ_min_succ, List.replicate_succ, Nat.succ_sub_succ]

/-- A burst routed through the per-identity bucket map behaves exactly like
the same burst on the identity's own bucket (a fresh full bucket when the
identity is unseen); other identities do not interfere. -/
theorem stateBurst_eq_burst (C now : ℚ) (id : String) (n : Nat) :
    ∀ st : AdmState,
      (stateBurst C now st id n).1 =
        (burst C now ((st id).getD (freshBucket C now)) n).1 ∧
      ((stateBurst C now st id n).2 id).getD (freshBucket C now) =
        (burst C now ((st id).getD (freshBucket C now)) n).2 := by
  induction n with
  | zero => intro st; simp [stateBurst, burst]
  | succ n ih =>
    intro st
    have hup : (stateTryAcquire C now st id).2 id =
        some (tryAcquire C now ((st id).getD (freshBucket C now))).2 := by
      simp [stateTryAcquire]
    have h1 := ih (stateTryAcquire C now st id).2
    rw [hup, Option.getD_some] at h1
    constructor
    · simp only [stateBurst, burst]
      rw [h1.1]
      simp [stateTryAcquire]
    · simp only [stateBurst, burst]
      exact h1.2

/-! Claim theorems. -/

/-- C1 (counterexample): the claim says every input in the given set is
normalized to a string matching `^[+-]\d+%$`; but the concrete input `"5"`
from that set passes through the normalization of `server.py` lines 126-127
unchanged, and `"5"` does not match the pattern. -/
theorem normalizeParam_not_signed_percent :
    matchesSignedPercent (normalizeParam (some "5")) = false ∧
    normalizeParam (some "5") = "5" := by
  decide

/-- C1 (amended): the inline normalization maps only the blank/zero inputs
(`None`, `""`, `"0%"`) to the default `"+0%"` and passes every other raw
input through unchanged; hence, over the claimed input set, the output
matches `^[+-]\d+%$` exactly for the blank/zero inputs and for `"-5%"` and
`"+10%"`, and fails to match for `"0"`, `"+0"`, `"5"` and `"%%5%"`. -/
theorem normalizeParam_exact_behaviour :
    normalizeParam none = "+0%" ∧ normalizeParam (some "") = "+0%" ∧
    normalizeParam (some "0%") = "+0%" ∧
    normalizeParam (some "0") = "0" ∧ normalizeParam (some "+0") = "+0" ∧
    normalizeParam (some "5") = "5" ∧ normalizeParam (some "-5%") = "-5%" ∧
    normalizeParam (some "+10%") = "+10%" ∧
    normalizeParam (some "%%5%") = "%%5%" ∧
    matchesSignedPercent "+0%" = true ∧ matchesSignedPercent "-5%" = true ∧
    matchesSignedPercent "+10%" = true ∧
    matchesSignedPercent "0" = false ∧ matchesSignedPercent "+0" = false ∧
    matchesSignedPercent "5" = false ∧ matchesSignedPercent "%%5%" = false := by
  decide

/-- C2: for every client identity, starting from an empty bucket map with
capacity 60, a burst of 61 calls with no elapsed time admits exactly 60, the
61st call is rejected and maps to HTTP 429, and refilling the identity's
bucket 60 seconds later restores the token count to exactly 60, never more.
The admission controller is modelled from the spec (§4.1): `server.py`
contains none. -/
theorem admission_burst_c60 (id : String) :
    (stateBurst 60 0 (fun _ => none) id 61).1.count true = 60 ∧
    (stateBurst 60 0 (fun _ => none) id 61).1.getLast? = some false ∧
    ((stateBurst 60 0 (fun _ => none) id 61).1.map admissionStatus).getLast? =
      some (some 429) ∧
    refillTokens 60 60
      (((stateBurst 60 0 (fun _ => none) id 61).2 id).getD (freshBucket 60 0)) =
      60 := by
  have hsb := stateBurst_eq_burst 60 0 id 61 (fun _ => none)
  simp only [Option.getD_none] at hsb
  have hfr : freshBucket 60 0 = ⟨((60 : Nat) : ℚ), 0⟩ := by
    simp [freshBucket]
  rw [hfr] at hsb
  have hb := burst_same_instant 60 0 61 60 (by norm_num)
  rw [hb] at hsb
  norm_num at hsb
  have hfr2 : freshBucket 60 0 = ({ tokens := (60 : ℚ), lastRefill := 0 } : Bucket) := by
    norm_num [freshBucket]
  rw [hsb.1, hfr2, hsb.2]
  refine ⟨?_, ?_, ?_, ?_⟩
  · simp [List.count_append, List.count_replicate]
  · simp [List.getLast?_concat]
  · simp [List.map_append, List.getLast?_concat, admissionStatus]
  · norm_num [refillTokens]

/-- C2 (witness): the burst property instantiated at a concrete identity. -/
theorem admission_burst_c60_witness :
    (stateBurst 60 0 (fun _ => none) "198.51.100.7" 61).1.count true = 60 ∧
    (stateBurst 60 0 (fun _ => none) "198.51.100.7" 61).1.getLast? = some false ∧
    ((stateBurst 60 0 (fun _ => none) "198.51.100.7" 61).1.map
      admissionStatus).getLast? = some (some 429) ∧
    refillTokens 60 60
      (((stateBurst 60 0 (fun _ => none) "198.51.100.7" 61).2 "198.51.100.7").getD
        (freshBucket 60 0)) = 60 :=
  admission_burst_c60 "198.51.100.7"

/-- C3 (counterexample): the claim says the provider's explicit no-audio
failure is surfaced as 502; but the single `except` clause of the `speak`
handler returns 500 for it, the same status as every other failure. -/
theorem speak_noAudio_returns_500 :
    speak "en-NG-EzinneNeural" "hello" none none none
      (fun _ _ _ _ => .error .noAudio) = (500, none) ∧
    (speak "en-NG-EzinneNeural" "hello" none none none
      (fun _ _ _ _ => .error .noAudio)).1 ≠ 502 := by
  refine ⟨rfl, by decide⟩

/-- C3 (amended): every synthesis failure — the provider's explicit no-audio
signal and any other exception alike — is caught by the handler's single
`except` clause and surfaced as HTTP 500; no 502 path exists. -/
theorem speak_all_errors_500 (dv text : String) (voice rate volume : Option String)
    (synth : SynthFn) (e : SynthError)
    (h : synth text (strTrim (pyOrStr voice dv)) (normalizeParam rate)
      (normalizeParam volume) = .error e) :
    speak dv text voice rate volume synth = (500, none) := by
  simp [speak, h]

/-- C3 (witness): the amended statement at a concrete no-audio failure. -/
theorem speak_all_errors_500_witness :
    speak "en-NG-EzinneNeural" "hello" none none none
      (fun _ _ _ _ => .error .noAudio) = (500, none) :=
  speak_all_errors_500 "en-NG-EzinneNeural" "hello" none none none
    (fun _ _ _ _ => .error .noAudio) .noAudio rfl

/-- C4: for every body whose extracted message is non-empty, if the AI call
raises any exception (timeouts included) or returns empty text, the `agent`
handler still returns successfully, echoing the user message with
`mode = "echo"` and a non-null error classification; the exception is never
propagated. -/
theorem agent_failure_echo_fallback (body : AgentIn) (aiCall : AIResult)
    (hmsg : extractMsg body ≠ "")
    (hfail : ∀ content, aiCall = .success content → strTrim (content.getD "") = "") :
    ∃ out, agent body true aiCall = .ok out ∧
      out.reply = extractMsg body ∧ out.mode = "echo" ∧ out.error.isSome = true := by
  cases aiCall with
  | success content =>
    have he := hfail content rfl
    exact ⟨⟨extractMsg body, "echo", agentType body, some "ai_error: ValueError"⟩,
      by simp [agent, hmsg, he], rfl, rfl, rfl⟩
  | exn n =>
    exact ⟨⟨extractMsg body, "echo", agentType body, some ("ai_error: " ++ n)⟩,
      by simp [agent, hmsg], rfl, rfl, rfl⟩

/-- C4 (witness): the fallback at a concrete message and a timeout. -/
theorem agent_failure_echo_fallback_witness :
    ∃ out, agent ⟨some "Hello", none, none⟩ true (.exn "APITimeoutError") = .ok out ∧
      out.reply = extractMsg ⟨some "Hello", none, none⟩ ∧
      out.mode = "echo" ∧ out.error.isSome = true :=
  agent_failure_echo_fallback ⟨some "Hello", none, none⟩ (.exn "APITimeoutError")
    (by decide) (fun content hc => by cases hc)

/-- C5: whenever the `agent` handler returns a result, `mode = "ai"` holds
only if the client was available and the provider returned a reply that is
non-empty after trimming (which the result carries with a null error); every
other outcome has `mode = "echo"` together with a non-null error code. -/
theorem agent_mode_ai_invariant (body : AgentIn) (c : Bool) (aiCall : AIResult)
    (out : AgentOut) (h : agent body c aiCall = .ok out) :
    (out.mode = "ai" →
      c = true ∧ ∃ content, aiCall = .success content ∧
        strTrim (content.getD "") ≠ "" ∧
        out.reply = strTrim (content.getD "") ∧ out.error = none) ∧
    (out.mode ≠ "ai" → out.mode = "echo" ∧ out.error ≠ none) := by
  by_cases hmsg : extractMsg body = ""
  · simp [agent, hmsg] at h
  · cases c with
    | false =>
      simp [agent, hmsg] at h
      subst h
      constructor
      · intro hc
        simp at hc
      · intro _
        exact ⟨rfl, by simp⟩
    | true =>
      cases aiCall with
      | success content =>
        by_cases hr : strTrim (content.getD "") = ""
        · simp [agent, hmsg, hr] at h
          subst h
          constructor
          · intro hc
            simp at hc
          · intro _
            exact ⟨rfl, by simp⟩
        · simp [agent, hmsg, hr] at h
          subst h
          constructor
          · intro _
            exact ⟨rfl, content, rfl, hr, rfl, rfl⟩
          · intro hc
            exact absurd rfl hc
      | exn n =>
        simp [agent, hmsg] at h
        subst h
        constructor
        · intro hc
          simp at hc
        · intro _
          exact ⟨rfl, by simp⟩

/-- C5 (witness): the invariant at a concrete successful AI call. -/
theorem agent_mode_ai_invariant_witness :
    (({ reply := "ok", mode := "ai", agent := "lexi", error := none } : AgentOut).mode = "ai" →
      true = true ∧ ∃ content, AIResult.success (some "ok") = .success content ∧
        strTrim (content.getD "") ≠ "" ∧
        ({ reply := "ok", mode := "ai", agent := "lexi", error := none } : AgentOut).reply =
          strTrim (content.getD "") ∧
        ({ reply := "ok", mode := "ai", agent := "lexi", error := none } : AgentOut).error = none) ∧
    (({ reply := "ok", mode := "ai", agent := "lexi", error := none } : AgentOut).mode ≠ "ai" →
      ({ reply := "ok", mode := "ai", agent := "lexi", error := none } : AgentOut).mode = "echo" ∧
      ({ reply := "ok", mode := "ai", agent := "lexi", error := none } : AgentOut).error ≠ none) :=
  agent_mode_ai_invariant ⟨some "hi", none, none⟩ true (.success (some "ok"))
    ⟨"ok", "ai", "lexi", none⟩ rfl

/-- C6 (counterexample): the claim says the no-credential echo fallback
carries the error tag `credential_not_configured`; the handler actually tags
it `openai_not_configured`. -/
theorem agent_no_credential_error_tag :
    agent ⟨some "Hello", none, none⟩ false (.exn "E") =
      .ok ⟨"Hello", "echo", "lexi", some "openai_not_configured"⟩ ∧
    ("openai_not_configured" : String) ≠ "credential_not_configured" := by
  refine ⟨rfl, by decide⟩

/-- C6 (amended): with no client configured, any non-empty message produces
the echo fallback immediately — `mode = "echo"`, reply equal to the
extracted user message — with the error tag `openai_not_configured` (the
claimed tag `credential_not_configured` appears nowhere in the code). -/
theorem agent_no_credential_echo (body : AgentIn) (aiCall : AIResult)
    (hmsg : extractMsg body ≠ "") :
    agent body false aiCall =
      .ok ⟨extractMsg body, "echo", agentType body, some "openai_not_configured"⟩ := by
  simp [agent, hmsg]

/-- C6 (witness): the amended statement at the concrete message "Hello". -/
theorem agent_no_credential_echo_witness :
    agent ⟨some "Hello", none, none⟩ false (.exn "E") =
      .ok ⟨extractMsg ⟨some "Hello", none, none⟩, "echo",
        agentType ⟨some "Hello", none, none⟩, some "openai_not_configured"⟩ :=
  agent_no_credential_echo ⟨some "Hello", none, none⟩ (.exn "E") (by decide)

/-- C7: a body whose message is empty or whitespace-only after trimming is
rejected with HTTP 422 regardless of the client state and of the AI call's
outcome — the validation happens before either is consulted. -/
theorem agent_empty_message_422 (body : AgentIn) (c : Bool) (aiCall : AIResult)
    (hmsg : extractMsg body = "") :
    agent body c aiCall = .error 422 := by
  simp [agent, hmsg]

/-- C7 (witness): the 422 rejection at a concrete whitespace-only message. -/
theorem agent_empty_message_422_witness :
    agent ⟨some "   ", none, none⟩ true (.exn "E") = .error 422 :=
  agent_empty_message_422 ⟨some "   ", none, none⟩ true (.exn "E") (by decide)

/-- C8 (counterexample): the claim says the agent's reply is sanitized
(non-ASCII stripped, whitespace collapsed) before synthesis; but the
composite handler feeds the reply through verbatim — a probe synthesis
backend receives the raw reply `"héllo   wörld"`, which differs from its
sanitized form. -/
theorem speak_agent_unsanitized_text :
    speak_agent "en-NG-EzinneNeural" ⟨some "hi", none, none⟩ true
      (.success (some "héllo   wörld")) textProbe =
      .ok (200, some (strBytes "héllo   wörld")) ∧
    strBytes "héllo   wörld" ≠ strBytes (sanitizeSpec "héllo   wörld") := by
  refine ⟨rfl, by decide⟩

/-- C8 (amended): the composite handler passes the agent's reply text to the
synthesis pipeline verbatim; no sanitizer strips non-ASCII characters or
collapses whitespace in between. -/
theorem speak_agent_passes_reply_verbatim (dv : String) (body : AgentIn)
    (c : Bool) (aiCall : AIResult) (out : AgentOut)
    (h : agent body c aiCall = .ok out) :
    speak_agent dv body c aiCall textProbe = .ok (200, some (strBytes out.reply)) := by
  simp [speak_agent, h, speak, textProbe]

/-- C8 (witness): the verbatim pass-through at a concrete echo reply. -/
theorem speak_agent_passes_reply_verbatim_witness :
    speak_agent "en-NG-EzinneNeural" ⟨some "hi", none, none⟩ false (.exn "E")
      textProbe =
      .ok (200, some (strBytes
        ({ reply := "hi", mode := "echo", agent := "lexi",
           error := some "openai_not_configured" } : AgentOut).reply)) :=
  speak_agent_passes_reply_verbatim "en-NG-EzinneNeural" ⟨some "hi", none, none⟩
    false (.exn "E") ⟨"hi", "echo", "lexi", some "openai_not_configured"⟩ rfl

/-- C9: whenever the agent step returns, the composite handler synthesizes
with the environment-configured default voice (stripped), whatever the
request body contains — `AgentIn` carries no voice field, and no
caller-supplied input reaches the voice argument. -/
theorem speak_agent_uses_default_voice (dv : String) (body : AgentIn)
    (c : Bool) (aiCall : AIResult) (out : AgentOut)
    (h : agent body c aiCall = .ok out) :
    speak_agent dv body c aiCall voiceProbe = .ok (200, some (strBytes (strTrim dv))) := by
  simp [speak_agent, h, speak, voiceProbe, pyOrStr]

/-- C9 (witness): the default voice reaching the synthesis backend at a
concrete request. -/
theorem speak_agent_uses_default_voice_witness :
    speak_agent "en-NG-EzinneNeural" ⟨some "hi", none, none⟩ false (.exn "E")
      voiceProbe =
      .ok (200, some (strBytes (strTrim "en-NG-EzinneNeural"))) :=
  speak_agent_uses_default_voice "en-NG-EzinneNeural" ⟨some "hi", none, none⟩
    false (.exn "E") ⟨"hi", "echo", "lexi", some "openai_not_configured"⟩ rfl

/-- C10: the first failed initialization moves the cache `_oai` to `False`,
and from that state every later call — whatever the key configuration and
however the construction would now behave — returns no client and leaves the
cache failed: initialization is never retried. -/
theorem client_init_never_retried :
    get_openai_client true false .uninit = (.failed, none) ∧
    ∀ (apiKeyPresent : Bool) (inits : List Bool),
      (runClientCalls apiKeyPresent inits .failed).1 = .failed ∧
      ((runClientCalls apiKeyPresent inits .failed).2.all fun r => r.isNone) = true := by
  refine ⟨rfl, ?_⟩
  intro apiKeyPresent inits
  induction inits with
  | nil => simp [runClientCalls]
  | cons i is ih =>
    simp [runClientCalls, get_openai_client, ih.1, ih.2]

/-- C10 (witness): the failed cache stays failed over a concrete call
sequence, even when a later construction would succeed. -/
theorem client_init_never_retried_witness :
    (runClientCalls true [true, false, true] .failed).1 = .failed ∧
    ((runClientCalls true [true, false, true] .failed).2.all fun r => r.isNone) = true :=
  client_init_never_retried.2 true [true, false, true]

end OdiaTTS
